import Mathlib

/-!
Verification of the Bematore payment-system core: a shallow embedding of
the currency-conversion service, the provider status mappers, the
transaction model with its save hook, the callback/webhook reconciliation
views and the status-poll view, together with theorems settling the
specification claims.

Modelling conventions:
* monetary amounts and exchange rates are exact rationals (`ℚ`); the
  Python code computes `1.0 / from_rate` in binary floating point, which
  is modelled here as exact rational division (the float value agrees
  with the exact quotient to within one unit in the last place, far below
  the cent-level quantities the claims speak about);
* Python `Decimal.quantize(Decimal('0.01'))` (default rounding
  ROUND_HALF_EVEN) is modelled by `quantize2` built on a half-even
  integer rounding;
* fresh `uuid.uuid4()` identifiers are modelled by a fixed placeholder
  string whose value is irrelevant to every claim;
* database rows live in explicit `List`s inside a `SysState` record;
  `PaymentTransaction.objects.get` is `List.find?`;
* the downstream Firebase sync (`record_payment_in_firebase` /
  `update_user_payment_status`) is modelled by an invocation counter.
-/

namespace Bematore

/-! ## Half-even rounding and two-decimal quantization
    (Python `Decimal.quantize(Decimal('0.01'))`, ROUND_HALF_EVEN). -/

/-- Round a rational to the nearest integer, ties to the even integer
(Python Decimal ROUND_HALF_EVEN). -/
def roundHalfEven (q : ℚ) : ℤ :=
  let n := ⌊q⌋
  let f := q - n
  if f < 1/2 then n
  else if 1/2 < f then n + 1
  else if n % 2 = 0 then n else n + 1

/-- `x.quantize(Decimal('0.01'))`: round to two decimal places, half to even. -/
def quantize2 (q : ℚ) : ℚ :=
  (roundHalfEven (q * 100) : ℚ) / 100

/-! ## Settings (`bematore_payments/settings.py`, PAYMENT_CONFIG defaults) -/

/-- `PAYMENT_CONFIG['EXCHANGE_RATES']` with the default env values:
USD 1.0 (base), KES 147.50, EUR 0.85, GBP 0.73. -/
def EXCHANGE_RATES : List (String × ℚ) :=
  [("USD", 1), ("KES", 1475/10), ("EUR", 85/100), ("GBP", 73/100)]

/-- `PAYMENT_CONFIG['DEFAULT_CURRENCY']` default. -/
def DEFAULT_CURRENCY : String := "USD"

/-- `PAYMENT_CONFIG['MINIMUM_AMOUNT']` default. -/
def MINIMUM_AMOUNT : ℚ := 1

/-- `PAYMENT_CONFIG['MAXIMUM_AMOUNT']` default. -/
def MAXIMUM_AMOUNT : ℚ := 10000

/-- Python `dict.get(key, default)` over an association list. -/
def dictGetD (table : List (String × ℚ)) (key : String) (dflt : ℚ) : ℚ :=
  match table.lookup key with
  | some v => v
  | none => dflt

/-- Python `str.upper` on one ASCII character. -/
def upperChar (c : Char) : Char :=
  if 'a' ≤ c ∧ c ≤ 'z' then Char.ofNat (c.toNat - 32) else c

/-- Python `str.lower` on one ASCII character. -/
def lowerChar (c : Char) : Char :=
  if 'A' ≤ c ∧ c ≤ 'Z' then Char.ofNat (c.toNat + 32) else c

/-- Python `str.upper` (currency codes and status strings are ASCII). -/
def asciiUpper (s : String) : String := ⟨s.data.map upperChar⟩

/-- Python `str.lower`. -/
def asciiLower (s : String) : String := ⟨s.data.map lowerChar⟩

/-- A Python float amount as `Decimal(str(amount))` sees it: either a
finite decimal value or a non-finite literal (`inf`, `-inf`, `nan`). -/
inductive PyNum where
  | finite (q : ℚ)
  | nonfinite (lit : String)
  deriving Repr, DecidableEq

/-! ## CurrencyService (`payments/services/currency_service.py`) -/

namespace CurrencyService

/-- `CurrencyService.get_exchange_rate`: rate between two currency codes,
with the source's `.get(code, 1.0)` fallbacks and `1.0 / from_rate`
inversion (guarded by `from_rate != 0`). -/
def get_exchange_rate (from_currency to_currency : String) : ℚ :=
  let from_currency := asciiUpper from_currency
  let to_currency := asciiUpper to_currency
  if from_currency = to_currency then 1
  else if from_currency = DEFAULT_CURRENCY then
    dictGetD EXCHANGE_RATES to_currency 1
  else if to_currency = DEFAULT_CURRENCY then
    let from_rate := dictGetD EXCHANGE_RATES from_currency 1
    if from_rate ≠ 0 then 1 / from_rate else 1
  else
    let from_to_usd_rate := 1 / dictGetD EXCHANGE_RATES from_currency 1
    let usd_to_target_rate := dictGetD EXCHANGE_RATES to_currency 1
    from_to_usd_rate * usd_to_target_rate

/-- The body of `CurrencyService.convert_amount`'s `try` block.  In the
model the only failure the `except` clause can observe is a non-finite
amount (`Decimal('Infinity').quantize` raises InvalidOperation); with
string currency codes the rate lookup itself is total.  `none` plays the
role of a raised exception. -/
def convert_amount_core (amount : PyNum) (from_currency to_currency : String) :
    Option ℚ :=
  match amount with
  | .finite a =>
      let rate := get_exchange_rate from_currency to_currency
      some (quantize2 (a * rate))
  | .nonfinite _ => none

/-- `CurrencyService.convert_amount`: convert and round to two decimals;
any exception inside the `try` is caught and the original amount is
returned unchanged (neither converted nor rounded). -/
def convert_amount (amount : PyNum) (from_currency to_currency : String) :
    PyNum :=
  match convert_amount_core amount from_currency to_currency with
  | some v => .finite v
  | none => amount

/-- `convert_amount` specialised to finite amounts. -/
def convert_amountQ (amount : ℚ) (from_currency to_currency : String) : ℚ :=
  match convert_amount (.finite amount) from_currency to_currency with
  | .finite q => q
  | .nonfinite _ => amount

/-- `CurrencyService.convert_to_usd`. -/
def convert_to_usd (amount : ℚ) (from_currency : String) : ℚ :=
  convert_amountQ amount from_currency DEFAULT_CURRENCY

/-- `CurrencyService.convert_from_usd`. -/
def convert_from_usd (usd_amount : ℚ) (to_currency : String) : ℚ :=
  convert_amountQ usd_amount DEFAULT_CURRENCY to_currency

/-- `CurrencyService.get_supported_currencies`. -/
def get_supported_currencies : List String :=
  EXCHANGE_RATES.map Prod.fst

end CurrencyService

/-! ## Provider status mappers
    (`mpesa_service.py._map_result_code`, `flutterwave_service.py._map_payment_status`) -/

/-- The mapping table of `MpesaService._map_result_code`. -/
def mpesaStatusMapping : List (String × String) :=
  [("0", "completed"), ("1032", "cancelled"), ("1037", "failed"),
   ("1025", "failed"), ("1001", "failed"), ("1019", "failed"),
   ("1026", "failed"), ("1036", "failed"), ("1054", "failed"),
   ("2001", "processing")]

/-- `MpesaService._map_result_code`: map an M-Pesa result code to a
payment status, defaulting to `failed`. -/
def mpesaMapResultCode (result_code : String) : String :=
  (mpesaStatusMapping.lookup result_code).getD "failed"

/-- The mapping table of `FlutterwaveService._map_payment_status`. -/
def flwStatusMapping : List (String × String) :=
  [("successful", "completed"), ("completed", "completed"),
   ("pending", "processing"), ("failed", "failed"),
   ("cancelled", "cancelled"), ("abandoned", "cancelled")]

/-- `FlutterwaveService._map_payment_status`: map a Flutterwave status
string (lower-cased) to the internal status, defaulting to `failed`. -/
def flwMapPaymentStatus (flutterwave_status : String) : String :=
  (flwStatusMapping.lookup (asciiLower flutterwave_status)).getD "failed"

/-- A lookup over an association list whose key set misses `k` yields
nothing. -/
theorem lookup_eq_none_of_not_mem_keys {α β : Type} [BEq α] [LawfulBEq α]
    (l : List (α × β)) (k : α) (h : k ∉ l.map Prod.fst) :
    l.lookup k = none := by
  induction l with
  | nil => rfl
  | cons p t ih =>
      simp only [List.map_cons, List.mem_cons] at h
      push_neg at h
      obtain ⟨h1, h2⟩ := h
      have hne : (k == p.1) = false := beq_eq_false_iff_ne.mpr h1
      simp only [List.lookup, hne, ih h2]

/-! ## Transaction model (`payments/models.py`) -/

/-- `uuid.uuid4()` modelled as a fixed fresh identifier; its value is
irrelevant to every verified claim. -/
def uuid4 : String := "00000000-0000-0000-0000-000000000000"

/-- One `PaymentTransaction` row. -/
structure Transaction where
  transaction_id : String
  user_uid : String
  email : String
  name : String
  phone_number : String
  payment_method : String
  amount : ℚ
  currency : String
  purpose : String
  status : String
  mpesa_checkout_request_id : String
  mpesa_receipt : String
  flutterwave_tx_ref : String
  flutterwave_flw_ref : String
  failure_reason : String
  completed_at : Option Nat
  deriving Repr, DecidableEq

/-- `PaymentTransaction.save`: generate a transaction id when unset and
stamp `completed_at` on the first save in status `completed`; `now` is
`timezone.now()`. -/
def Transaction.save (now : Nat) (t : Transaction) : Transaction :=
  let t := if t.transaction_id = "" then { t with transaction_id := uuid4 } else t
  if t.status = "completed" ∧ t.completed_at = none then
    { t with completed_at := some now }
  else t

/-- `PaymentTransaction.is_pending`. -/
def Transaction.is_pending (t : Transaction) : Bool :=
  t.status = "pending" ∨ t.status = "processing"

/-- One `CallbackLog` row, in its final state after the request that
created it has finished (`callbacks/models.py`). -/
structure CallbackLog where
  provider : String
  transaction_id : String
  success : Bool
  error_message : String
  deriving Repr, DecidableEq

/-- The database rows plus a counter of downstream-sync invocations
(`record_payment_in_firebase` / `update_user_payment_status` pairs). -/
structure SysState where
  txs : List Transaction
  logs : List CallbackLog
  syncCount : Nat
  deriving Repr, DecidableEq

/-- Replace the transaction with the given id. -/
def SysState.storeTx (s : SysState) (t : Transaction) : SysState :=
  { s with txs := s.txs.map fun u => if u.transaction_id = t.transaction_id then t else u }

/-! ## M-Pesa callback pipeline
    (`MpesaService.process_callback`, `callbacks/views.py MpesaCallbackView.post`) -/

/-- Fields extracted from the nested `Body.stkCallback` envelope of an
M-Pesa callback. -/
structure MpesaCallbackData where
  merchant_request_id : String
  checkout_request_id : String
  result_code : String
  result_desc : String
  mpesa_receipt : Option String
  transaction_date : Option String
  deriving Repr, DecidableEq

/-- An inbound M-Pesa callback request body. `badJson` is a body on which
`json.loads` raises; `malformed` parses as JSON but makes
`process_callback` raise internally (its `except` clause builds an error
dict yet never returns it, so the call yields None); `callback` is a
well-formed envelope. -/
inductive MpesaBody where
  | badJson : MpesaBody
  | malformed : MpesaBody
  | callback (d : MpesaCallbackData) : MpesaBody
  deriving Repr, DecidableEq

/-- The result dictionary of `MpesaService.process_callback`. -/
structure MpesaResult where
  success : Bool
  checkout_request_id : String
  status : String
  mpesa_receipt : Option String
  error_message : String
  deriving Repr, DecidableEq

/-- `MpesaService.process_callback`: parse the envelope, map the result
code and collect payment details.  Its `except` clause catches internal
exceptions and builds an `error_response` dict but contains no `return`,
so the function falls off the end and yields Python `None` — modelled as
`none`. -/
def processCallback : MpesaBody → Option MpesaResult
  | .callback d =>
      some { success := true
             checkout_request_id := d.checkout_request_id
             status := mpesaMapResultCode d.result_code
             mpesa_receipt := d.mpesa_receipt
             error_message := "" }
  | _ => none

/-- The JSON body of the view's `JsonResponse` (its `ResultCode`). -/
structure MpesaAck where
  resultCode : Nat
  deriving Repr, DecidableEq

/-- `MpesaCallbackView.post`: log the callback, process it, resolve the
transaction by checkout-request id, apply the mapped status, and fire the
downstream sync on a fresh transition into `completed`; replies with
result code 0 at the end of the `try` block, and result code 1 from the
`except` branch.  The `except` branch is reached when the body fails
JSON parsing, and also when `process_callback` raises internally: its
`except` clause returns nothing, the view's `result` is None, and
`result.get('success')` raises AttributeError — the CallbackLog row
created before processing then survives with its model defaults
(`success = False`, blank `error_message`). -/
def mpesaCallbackPost (now : Nat) (s : SysState) (body : MpesaBody) :
    SysState × MpesaAck :=
  match body with
  | .badJson => (s, { resultCode := 1 })
  | b =>
      -- CallbackLog.objects.create runs before processing
      match processCallback b with
      | none =>
          ({ s with logs := s.logs ++
              [{ provider := "mpesa", transaction_id := "unknown"
                 success := false, error_message := "" }] },
           { resultCode := 1 })
      | some result =>
          let s :=
            if result.success then
              match s.txs.find? fun t => t.mpesa_checkout_request_id = result.checkout_request_id with
              | some transaction =>
                  let log : CallbackLog :=
                    { provider := "mpesa", transaction_id := transaction.transaction_id
                      success := true, error_message := "" }
                  let old_status := transaction.status
                  let transaction := { transaction with status := result.status }
                  let transaction :=
                    match result.mpesa_receipt with
                    | some r => { transaction with mpesa_receipt := r }
                    | none => transaction
                  let transaction := transaction.save now
                  let s := (s.storeTx transaction)
                  let s := { s with logs := s.logs ++ [log] }
                  if transaction.status = "completed" ∧ old_status ≠ "completed" then
                    { s with syncCount := s.syncCount + 1 }
                  else s
              | none =>
                  let log : CallbackLog :=
                    { provider := "mpesa", transaction_id := "unknown"
                      success := false, error_message := "Transaction not found" }
                  { s with logs := s.logs ++ [log] }
            else
              let log : CallbackLog :=
                { provider := "mpesa", transaction_id := "unknown"
                  success := false, error_message := result.error_message }
              { s with logs := s.logs ++ [log] }
          -- the source always acknowledges with result code 0 at the end
          -- of the try block, to suppress provider-side retries
          (s, { resultCode := 0 })

/-! ## Flutterwave webhook pipeline
    (`FlutterwaveService.process_webhook`, `callbacks/views.py FlutterwaveWebhookView.post`) -/

/-- The `data` object of a Flutterwave webhook notification. -/
structure FlwWebhookData where
  tx_ref : String
  status : String
  flw_ref : Option String
  payment_type : String
  deriving Repr, DecidableEq

/-- An inbound Flutterwave webhook body; `badJson` raises in `json.loads`. -/
inductive FlwBody where
  | badJson : FlwBody
  | webhook (d : FlwWebhookData) : FlwBody
  deriving Repr, DecidableEq

/-- The result dictionary of `FlutterwaveService.process_webhook`. -/
structure FlwResult where
  success : Bool
  tx_ref : String
  status : String
  flw_ref : Option String
  error_message : String
  deriving Repr, DecidableEq

/-- `FlutterwaveService._verify_webhook_signature`: reject when the
header or the configured secret is missing, else compare the header with
the HMAC-SHA256 of the serialized payload under the webhook secret
(`hmac.compare_digest` is equality on strings).  The keyed hash is the
abstract parameter `hmac`. -/
def verifyWebhookSignature (hmac : FlwWebhookData → String)
    (secretConfigured : Bool) (d : FlwWebhookData) (signature : String) : Bool :=
  if signature = "" ∨ ¬secretConfigured then false
  else signature = hmac d

/-- `FlutterwaveService.process_webhook`: verify the signature first; on
mismatch return failure without touching any state, else map the payment
status and extract the payment fields. -/
def processWebhook (hmac : FlwWebhookData → String) (secretConfigured : Bool)
    (d : FlwWebhookData) (signature : String) : FlwResult :=
  if ¬verifyWebhookSignature hmac secretConfigured d signature then
    { success := false, tx_ref := "", status := "", flw_ref := none
      error_message := "Invalid webhook signature" }
  else
    { success := true
      tx_ref := d.tx_ref
      status := flwMapPaymentStatus d.status
      flw_ref := d.flw_ref
      error_message := "" }

/-- `FlutterwaveWebhookView.post`: log the webhook, verify and process
it, resolve the transaction by `tx_ref`, apply the mapped status, fire
the downstream sync on a fresh transition into `completed`; HTTP 200 on
every handled path, HTTP 500 from the `except` branch. -/
def flwWebhookPost (hmac : FlwWebhookData → String) (secretConfigured : Bool)
    (now : Nat) (s : SysState) (body : FlwBody) (signature : String) :
    SysState × Nat :=
  match body with
  | .badJson => (s, 500)
  | .webhook d =>
      let result := processWebhook hmac secretConfigured d signature
      let s :=
        if result.success then
          match s.txs.find? fun t => t.transaction_id = result.tx_ref with
          | some transaction =>
              let log : CallbackLog :=
                { provider := "flutterwave", transaction_id := d.tx_ref
                  success := true, error_message := "" }
              let old_status := transaction.status
              let transaction := { transaction with status := result.status }
              let transaction :=
                match result.flw_ref with
                | some r => { transaction with flutterwave_flw_ref := r }
                | none => transaction
              let transaction := transaction.save now
              let s := (s.storeTx transaction)
              let s := { s with logs := s.logs ++ [log] }
              if transaction.status = "completed" ∧ old_status ≠ "completed" then
                { s with syncCount := s.syncCount + 1 }
              else s
          | none =>
              let log : CallbackLog :=
                { provider := "flutterwave", transaction_id := d.tx_ref
                  success := false, error_message := "Transaction not found" }
              { s with logs := s.logs ++ [log] }
        else
          let log : CallbackLog :=
            { provider := "flutterwave", transaction_id := d.tx_ref
              success := false, error_message := result.error_message }
          { s with logs := s.logs ++ [log] }
      -- the source replies HTTP 200 at the end of the try block
      (s, 200)

/-! ## Status poll (`payments/views.py PaymentStatusAPIView`) -/

/-- The provider's answer to a status query (`query_stk_status` /
`verify_payment`), as consumed by `_update_payment_status`. -/
structure ProviderQueryResult where
  success : Bool
  status : String
  flw_ref : Option String
  deriving Repr, DecidableEq

/-- `PaymentStatusAPIView._update_payment_status` restricted to one
transaction: on a successful provider query whose mapped status differs
from the current one, store the new status (and save); returns the
transaction plus whether the completion sync fired. -/
def updatePaymentStatus (result : ProviderQueryResult) (now : Nat)
    (t : Transaction) : Transaction × Bool :=
  if result.success then
    let new_status := result.status
    if new_status ≠ t.status then
      let t := { t with status := new_status }
      let t :=
        match t.payment_method, result.flw_ref with
        | "flutterwave", some r => { t with flutterwave_flw_ref := r }
        | _, _ => t
      (t.save now, new_status = "completed")
    else (t, false)
  else (t, false)

/-- `PaymentStatusAPIView.get`'s reconciliation step: the provider is
queried, and the result applied, only while the transaction
`is_pending`. -/
def statusPollStep (result : ProviderQueryResult) (now : Nat)
    (t : Transaction) : Transaction × Bool :=
  if t.is_pending then updatePaymentStatus result now t
  else (t, false)

/-! ## Payment initiation (`payments/views.py PaymentInitiationView.post`) -/

/-- The request data of a payment-initiation call, together with the
authenticated user's fields. -/
structure InitRequest where
  amount : ℚ
  currency : String
  payment_method : String
  purpose : String
  phone_number : String
  user_uid : String
  email : String
  name : String
  deriving Repr, DecidableEq

/-- The provider's reply to the single initiation network call made by
`_process_payment` (STK push or hosted-payment session). -/
structure ProviderInitResult where
  success : Bool
  checkout_request_id : String
  tx_ref : String
  error_message : String
  deriving Repr, DecidableEq

/-- What the view observably did: the HTTP status of its `Response` and
how many provider network calls were made. -/
structure InitOutcome where
  httpStatus : Nat
  providerCalls : Nat
  deriving Repr, DecidableEq

/-- `PaymentInitiationView.post`: normalize the display amount to the
base currency, validate it against the configured minimum/maximum before
any persistence or provider call, then create the pending transaction,
call the provider (`_process_payment`) and finish according to the
provider result.  `providerResult` stands for the provider's network
reply; `now` is the save timestamp. -/
def paymentInitiationPost (min_usd max_usd : ℚ)
    (providerResult : ProviderInitResult) (now : Nat)
    (s : SysState) (req : InitRequest) : SysState × InitOutcome :=
  let display_amount := req.amount
  let display_currency := asciiUpper req.currency
  let usd_amount := CurrencyService.convert_to_usd display_amount display_currency
  if usd_amount < min_usd then
    (s, { httpStatus := 400, providerCalls := 0 })
  else if max_usd < usd_amount then
    (s, { httpStatus := 400, providerCalls := 0 })
  else
    let transaction : Transaction :=
      { transaction_id := uuid4, user_uid := req.user_uid, email := req.email
        name := req.name, phone_number := req.phone_number
        payment_method := req.payment_method, amount := usd_amount
        currency := "USD", purpose := req.purpose, status := "pending"
        mpesa_checkout_request_id := "", mpesa_receipt := ""
        flutterwave_tx_ref := "", flutterwave_flw_ref := ""
        failure_reason := "", completed_at := none }
    let s := { s with txs := s.txs ++ [transaction] }
    -- _process_payment: mpesa and flutterwave each make one provider
    -- call; an unsupported method fails without any network call
    let calls : Nat :=
      if req.payment_method = "mpesa" ∨ req.payment_method = "flutterwave"
      then 1 else 0
    let result :=
      if calls = 1 then providerResult
      else { success := false, checkout_request_id := "", tx_ref := ""
             error_message := "Unsupported payment method" }
    if result.success then
      let transaction :=
        if req.payment_method = "mpesa" then
          { transaction with mpesa_checkout_request_id := result.checkout_request_id }
        else if req.payment_method = "flutterwave" then
          { transaction with flutterwave_tx_ref := result.tx_ref }
        else transaction
      let transaction := transaction.save now
      ((s.storeTx transaction), { httpStatus := 201, providerCalls := calls })
    else
      let transaction :=
        { transaction with status := "failed"
                           failure_reason := result.error_message }
      let transaction := transaction.save now
      ((s.storeTx transaction), { httpStatus := 400, providerCalls := calls })

/-- A sample pending transaction used to instantiate witness statements. -/
def tx0 : Transaction :=
  { transaction_id := "TX-1", user_uid := "user-1"
    email := "user@example.com", name := "User"
    phone_number := "254700000000", payment_method := "mpesa"
    amount := 10, currency := "USD", purpose := "assessment"
    status := "pending", mpesa_checkout_request_id := "CRQ-1"
    mpesa_receipt := "", flutterwave_tx_ref := ""
    flutterwave_flw_ref := "", failure_reason := "", completed_at := none }

/-! ## Rounding bounds -/

/-- Half-even rounding moves a rational by at most one half. -/
theorem roundHalfEven_sub_le (q : ℚ) : |(roundHalfEven q : ℚ) - q| ≤ 1/2 := by
  unfold roundHalfEven
  have h0 : ((⌊q⌋ : ℤ) : ℚ) ≤ q := Int.floor_le q
  have h1 : q < (⌊q⌋ : ℤ) + 1 := Int.lt_floor_add_one q
  simp only []
  split_ifs with hf hg he <;> rw [abs_le] <;> push_cast at * <;>
    constructor <;> linarith

/-- Two-decimal quantization moves a rational by at most half a cent. -/
theorem quantize2_sub_le (q : ℚ) : |quantize2 q - q| ≤ 1/200 := by
  unfold quantize2
  have h := roundHalfEven_sub_le (q * 100)
  have hrw : (roundHalfEven (q * 100) : ℚ) / 100 - q
      = ((roundHalfEven (q * 100) : ℚ) - q * 100) / 100 := by ring
  rw [hrw, abs_div]
  rw [show |(100 : ℚ)| = 100 by norm_num]
  linarith

/-- Double quantization round trip through a positive rate `r`:
quantizing `X * r` and then quantizing the product with the inverse rate
lands within `1/200 * (1 + 1/r)` of `X`. -/
theorem roundtrip_bound (r : ℚ) (hr : 0 < r) (X : ℚ) :
    |quantize2 (quantize2 (X * r) * (1 / r)) - X| ≤ 1/200 * (1 + 1/r) := by
  set y := quantize2 (X * r) with hy
  have h1 : |y - X * r| ≤ 1/200 := quantize2_sub_le _
  have h2 : |quantize2 (y * (1/r)) - y * (1/r)| ≤ 1/200 := quantize2_sub_le _
  have hrne : r ≠ 0 := ne_of_gt hr
  have hinv : (0:ℚ) < 1/r := by positivity
  have h3 : |y * (1/r) - X| = |y - X * r| * (1/r) := by
    rw [show y * (1/r) - X = (y - X * r) * (1/r) by field_simp; ring]
    rw [abs_mul, abs_of_pos hinv]
  have h4 : |y * (1/r) - X| ≤ 1/200 * (1/r) := by
    rw [h3]
    exact mul_le_mul_of_nonneg_right h1 (le_of_lt hinv)
  calc |quantize2 (y * (1/r)) - X|
      ≤ |quantize2 (y * (1/r)) - y * (1/r)| + |y * (1/r) - X| :=
        abs_sub_le _ _ _
    _ ≤ 1/200 + 1/200 * (1/r) := add_le_add h2 h4
    _ = 1/200 * (1 + 1/r) := by ring

/-- On finite amounts `convert_amount` is exactly rate multiplication
followed by two-decimal quantization. -/
theorem convert_amountQ_eq (a : ℚ) (f t : String) :
    CurrencyService.convert_amountQ a f t
      = quantize2 (a * CurrencyService.get_exchange_rate f t) := rfl

/-- Evaluation rule for `quantize2` when the scaled value sits strictly
below the half-way point above `n`. -/
theorem quantize2_eq_of_near (q : ℚ) (n : ℤ) (h0 : (n : ℚ) ≤ q * 100)
    (h1 : q * 100 - n < 1/2) : quantize2 q = n / 100 := by
  have hfl : ⌊q * 100⌋ = n := Int.floor_eq_iff.mpr ⟨h0, by linarith⟩
  simp only [quantize2, roundHalfEven, hfl]
  rw [if_pos h1]

/-- Evaluation rule for `quantize2` when the scaled value sits strictly
above the half-way point above `n`. -/
theorem quantize2_eq_of_above (q : ℚ) (n : ℤ) (h1 : 1/2 < q * 100 - n)
    (h2 : q * 100 < n + 1) : quantize2 q = (n + 1) / 100 := by
  have h0 : (n : ℚ) ≤ q * 100 := by linarith
  have hfl : ⌊q * 100⌋ = n := Int.floor_eq_iff.mpr ⟨h0, by linarith⟩
  simp only [quantize2, roundHalfEven, hfl]
  rw [if_neg (by linarith), if_pos h1]
  push_cast
  ring

/-- Rate lookups for a code missing from the exchange-rate table fall
back to the default rate 1.0 in both directions. -/
theorem rate_default_of_unsupported (c : String)
    (h : (asciiUpper c) ∉ CurrencyService.get_supported_currencies) :
    CurrencyService.get_exchange_rate "USD" c = 1 ∧
    CurrencyService.get_exchange_rate c "USD" = 1 := by
  have husd : "USD" ∈ CurrencyService.get_supported_currencies := by decide
  have hne : (asciiUpper c) ≠ "USD" := fun hc => h (hc ▸ husd)
  have hlook : EXCHANGE_RATES.lookup (asciiUpper c) = none :=
    lookup_eq_none_of_not_mem_keys _ _ h
  have hup : asciiUpper "USD" = "USD" := by decide
  constructor
  · unfold CurrencyService.get_exchange_rate
    simp only [hup, DEFAULT_CURRENCY]
    rw [if_neg (fun hc => hne hc.symm), if_pos trivial]
    simp only [dictGetD, hlook]
  · unfold CurrencyService.get_exchange_rate
    simp only [hup, DEFAULT_CURRENCY]
    rw [if_neg hne, if_neg hne, if_pos trivial]
    simp only [dictGetD, hlook]
    norm_num

/-- Lookup skips a head entry with a different key. -/
theorem lookup_cons_of_ne {α β : Type} [BEq α] (k k' : α) (v : β)
    (l : List (α × β)) (h : (k == k') = false) :
    ((k', v) :: l).lookup k = l.lookup k := by
  simp [List.lookup, h]

/-- Lookup finds a head entry with the matching key. -/
theorem lookup_cons_self {α β : Type} [BEq α] [LawfulBEq α] (k : α) (v : β)
    (l : List (α × β)) : ((k, v) :: l).lookup k = some v := by
  simp [List.lookup]

/-- Rate between the base currency and itself. -/
theorem rate_usd_usd : CurrencyService.get_exchange_rate "USD" "USD" = 1 := by
  simp [CurrencyService.get_exchange_rate]

/-- Rate from the base currency to KES. -/
theorem rate_usd_kes :
    CurrencyService.get_exchange_rate "USD" "KES" = 1475/10 := by
  have h1 : asciiUpper "USD" = "USD" := by decide
  have h2 : asciiUpper "KES" = "KES" := by decide
  simp only [CurrencyService.get_exchange_rate, h1, h2, DEFAULT_CURRENCY, dictGetD,
    EXCHANGE_RATES]
  rw [if_neg (show ¬("USD" = "KES") by decide),
    lookup_cons_of_ne "KES" "USD" _ _ (by decide), lookup_cons_self]
  simp

/-- Rate from KES back to the base currency. -/
theorem rate_kes_usd :
    CurrencyService.get_exchange_rate "KES" "USD" = 1 / (1475/10) := by
  have h1 : asciiUpper "USD" = "USD" := by decide
  have h2 : asciiUpper "KES" = "KES" := by decide
  simp only [CurrencyService.get_exchange_rate, h1, h2, DEFAULT_CURRENCY, dictGetD,
    EXCHANGE_RATES]
  rw [if_neg (show ¬("KES" = "USD") by decide),
    if_neg (show ¬("KES" = "USD") by decide)]
  rw [lookup_cons_of_ne "KES" "USD" _ _ (by decide), lookup_cons_self]
  norm_num

/-- Rate from the base currency to EUR. -/
theorem rate_usd_eur :
    CurrencyService.get_exchange_rate "USD" "EUR" = 85/100 := by
  have h1 : asciiUpper "USD" = "USD" := by decide
  have h2 : asciiUpper "EUR" = "EUR" := by decide
  simp only [CurrencyService.get_exchange_rate, h1, h2, DEFAULT_CURRENCY, dictGetD,
    EXCHANGE_RATES]
  rw [if_neg (show ¬("USD" = "EUR") by decide),
    lookup_cons_of_ne "EUR" "USD" _ _ (by decide),
    lookup_cons_of_ne "EUR" "KES" _ _ (by decide), lookup_cons_self]
  simp

/-- Rate from EUR back to the base currency. -/
theorem rate_eur_usd :
    CurrencyService.get_exchange_rate "EUR" "USD" = 1 / (85/100) := by
  have h1 : asciiUpper "USD" = "USD" := by decide
  have h2 : asciiUpper "EUR" = "EUR" := by decide
  simp only [CurrencyService.get_exchange_rate, h1, h2, DEFAULT_CURRENCY, dictGetD,
    EXCHANGE_RATES]
  rw [if_neg (show ¬("EUR" = "USD") by decide),
    if_neg (show ¬("EUR" = "USD") by decide)]
  rw [lookup_cons_of_ne "EUR" "USD" _ _ (by decide),
    lookup_cons_of_ne "EUR" "KES" _ _ (by decide), lookup_cons_self]
  norm_num

/-- Rate from the base currency to GBP. -/
theorem rate_usd_gbp :
    CurrencyService.get_exchange_rate "USD" "GBP" = 73/100 := by
  have h1 : asciiUpper "USD" = "USD" := by decide
  have h2 : asciiUpper "GBP" = "GBP" := by decide
  simp only [CurrencyService.get_exchange_rate, h1, h2, DEFAULT_CURRENCY, dictGetD,
    EXCHANGE_RATES]
  rw [if_neg (show ¬("USD" = "GBP") by decide),
    lookup_cons_of_ne "GBP" "USD" _ _ (by decide),
    lookup_cons_of_ne "GBP" "KES" _ _ (by decide),
    lookup_cons_of_ne "GBP" "EUR" _ _ (by decide), lookup_cons_self]
  simp

/-- Rate from GBP back to the base currency. -/
theorem rate_gbp_usd :
    CurrencyService.get_exchange_rate "GBP" "USD" = 1 / (73/100) := by
  have h1 : asciiUpper "USD" = "USD" := by decide
  have h2 : asciiUpper "GBP" = "GBP" := by decide
  simp only [CurrencyService.get_exchange_rate, h1, h2, DEFAULT_CURRENCY, dictGetD,
    EXCHANGE_RATES]
  rw [if_neg (show ¬("GBP" = "USD") by decide),
    if_neg (show ¬("GBP" = "USD") by decide)]
  rw [lookup_cons_of_ne "GBP" "USD" _ _ (by decide),
    lookup_cons_of_ne "GBP" "KES" _ _ (by decide),
    lookup_cons_of_ne "GBP" "EUR" _ _ (by decide), lookup_cons_self]
  norm_num

/-! ## Claim theorems -/

/-- C2: every provider result code absent from the explicit mapping
table maps to `failed` — never to `completed` — in both the M-Pesa
result-code mapper and the Flutterwave status mapper. -/
theorem C2_fail_closed_status_mapping (code fstatus : String)
    (h1 : code ∉ mpesaStatusMapping.map Prod.fst)
    (h2 : (asciiLower fstatus) ∉ flwStatusMapping.map Prod.fst) :
    mpesaMapResultCode code = "failed" ∧
    mpesaMapResultCode code ≠ "completed" ∧
    flwMapPaymentStatus fstatus = "failed" ∧
    flwMapPaymentStatus fstatus ≠ "completed" := by
  unfold mpesaMapResultCode flwMapPaymentStatus
  rw [lookup_eq_none_of_not_mem_keys _ _ h1,
      lookup_eq_none_of_not_mem_keys _ _ h2]
  refine ⟨rfl, by decide, rfl, by decide⟩

/-- Witness for C2 at the unmapped codes `9999` and `refunded`. -/
theorem C2_fail_closed_status_mapping_witness :
    mpesaMapResultCode "9999" = "failed" ∧
    flwMapPaymentStatus "refunded" = "failed" := by
  have h := C2_fail_closed_status_mapping "9999" "refunded"
    (by decide) (by decide)
  exact ⟨h.1, h.2.2.1⟩

/-- C3 counterexample: `ABC` is not a configured currency, yet the rate
lookup returns the default rate 1.0 and conversion returns the amount
(rounded) rather than failing with an UnsupportedCurrency error — the
converter has no error path at all. -/
theorem C3_counterexample :
    "ABC" ∉ CurrencyService.get_supported_currencies ∧
    CurrencyService.get_exchange_rate "USD" "ABC" = 1 ∧
    CurrencyService.convert_amountQ 5 "USD" "ABC" = 5 := by
  have h := rate_default_of_unsupported "ABC" (by decide)
  refine ⟨by decide, h.1, ?_⟩
  rw [convert_amountQ_eq, h.1, mul_one]
  have h5 : quantize2 (5 : ℚ) = ((500 : ℤ) : ℚ) / 100 :=
    quantize2_eq_of_near _ 500 (by norm_num) (by norm_num)
  rw [h5]
  norm_num

/-- C3 amended: for a currency code absent from the exchange-rate table
the service never raises; it silently substitutes the default rate 1.0,
so conversion from the base currency returns the amount merely rounded
to two decimals. -/
theorem C3_unsupported_currency_defaults_to_one (c : String) (a : ℚ)
    (h : (asciiUpper c) ∉ CurrencyService.get_supported_currencies) :
    CurrencyService.get_exchange_rate "USD" c = 1 ∧
    CurrencyService.get_exchange_rate c "USD" = 1 ∧
    CurrencyService.convert_amountQ a "USD" c = quantize2 a := by
  obtain ⟨h1, h2⟩ := rate_default_of_unsupported c h
  exact ⟨h1, h2, by rw [convert_amountQ_eq, h1, mul_one]⟩

/-- Witness for C3's amended statement at the unsupported code `xyz`. -/
theorem C3_unsupported_currency_witness :
    CurrencyService.get_exchange_rate "USD" "xyz" = 1 ∧
    CurrencyService.convert_amountQ (7/2) "USD" "xyz" = quantize2 (7/2) := by
  have h := C3_unsupported_currency_defaults_to_one "xyz" (7/2) (by decide)
  exact ⟨h.1, h.2.2⟩

/-- C6: `completed_at` is assigned on the first save in status
`completed` while still unset, and no later save ever modifies or clears
an already-set `completed_at`. -/
theorem C6_completed_at_set_exactly_once :
    (∀ (t : Transaction) (now : Nat),
      t.status = "completed" → t.completed_at = none →
      (t.save now).completed_at = some now) ∧
    (∀ (t : Transaction) (now x : Nat),
      t.completed_at = some x → (t.save now).completed_at = some x) := by
  constructor
  · intro t now hs hc
    by_cases hid : t.transaction_id = "" <;>
      simp [Transaction.save, hid, hs, hc]
  · intro t now x hc
    by_cases hid : t.transaction_id = "" <;>
      simp [Transaction.save, hid, hc]

/-- Witness for C6: the first completed save stamps 7, a repeated save
at time 9 leaves the stamp at 7. -/
theorem C6_completed_at_witness :
    (({ tx0 with status := "completed" } : Transaction).save 7).completed_at
        = some 7 ∧
    (({ tx0 with status := "completed", completed_at := some 7 } : Transaction).save 9).completed_at
        = some 7 := by
  have h := C6_completed_at_set_exactly_once
  exact ⟨h.1 _ 7 rfl rfl, h.2 _ 9 7 rfl⟩

/-- C10: `convert_amount` always returns a value: a finite amount is
converted and rounded, and when the conversion body raises (a non-finite
amount) the exception is caught and the original amount is returned
unchanged — neither converted nor rounded. -/
theorem C10_convert_amount_never_raises (amount : PyNum)
    (f t : String) :
    (∀ q, amount = .finite q →
      CurrencyService.convert_amount amount f t
        = .finite (quantize2 (q * CurrencyService.get_exchange_rate f t))) ∧
    (CurrencyService.convert_amount_core amount f t = none →
      CurrencyService.convert_amount amount f t = amount) := by
  constructor
  · rintro q rfl
    rfl
  · intro h
    unfold CurrencyService.convert_amount
    rw [h]

/-- Witness for C10 at a non-finite and a finite amount. -/
theorem C10_convert_amount_witness :
    CurrencyService.convert_amount (.nonfinite "inf") "USD" "KES"
        = .nonfinite "inf" ∧
    CurrencyService.convert_amount (.finite 2) "USD" "KES"
        = .finite (quantize2 (2 * CurrencyService.get_exchange_rate "USD" "KES")) := by
  exact ⟨(C10_convert_amount_never_raises (.nonfinite "inf") "USD" "KES").2 rfl,
         (C10_convert_amount_never_raises (.finite 2) "USD" "KES").1 2 rfl⟩

/-- C1 counterexample: a transaction already in the terminal status
`completed` whose M-Pesa callback arrives later with result code 1032
(user cancelled) is moved to `cancelled` — the callback handler assigns
the mapped status unconditionally, so terminal states are not absorbing
on the callback path. -/
theorem C1_counterexample :
    (mpesaCallbackPost 9
        { txs := [{ tx0 with status := "completed", completed_at := some 5 }],
          logs := [], syncCount := 0 }
        (.callback { merchant_request_id := "M-1",
                     checkout_request_id := "CRQ-1",
                     result_code := "1032", result_desc := "Cancelled by user",
                     mpesa_receipt := none,
                     transaction_date := none })).1.txs.map Transaction.status
      = ["cancelled"] := by
  decide

/-- C1 amended: the status-poll path alone treats terminal states as
absorbing — `PaymentStatusAPIView` consults the provider only while the
transaction `is_pending`, so a poll never moves a transaction out of
`completed`, `failed` or `cancelled` and fires no sync; the
callback/webhook handlers, by contrast, overwrite terminal statuses (see
the counterexample). -/
theorem C1_terminal_absorbing_on_poll_path (t : Transaction)
    (result : ProviderQueryResult) (now : Nat)
    (h : t.status = "completed" ∨ t.status = "failed" ∨ t.status = "cancelled") :
    statusPollStep result now t = (t, false) := by
  have hp : t.is_pending = false := by
    unfold Transaction.is_pending
    rcases h with h|h|h <;> rw [h] <;> decide
  simp [statusPollStep, hp]

/-- Witness for C1's amended statement: a poll on a completed
transaction leaves it untouched. -/
theorem C1_terminal_absorbing_witness :
    statusPollStep { success := true, status := "failed", flw_ref := none } 3
        ({ tx0 with status := "completed" } : Transaction)
      = (({ tx0 with status := "completed" } : Transaction), false) :=
  C1_terminal_absorbing_on_poll_path _ _ 3 (Or.inl rfl)

/-- C5: a Flutterwave webhook whose supplied signature differs from the
HMAC recomputed over the payload is rejected before the state machine:
`process_webhook` returns failure, the CallbackRecord is marked failed
with the error message, the HTTP reply is still 200, and every
transaction (all fields) is unchanged. -/
theorem C5_invalid_signature_never_reaches_state_machine
    (hmac : FlwWebhookData → String) (secretConfigured : Bool)
    (now : Nat) (s : SysState) (d : FlwWebhookData) (sig : String)
    (hsig : sig ≠ hmac d) :
    processWebhook hmac secretConfigured d sig =
      { success := false, tx_ref := "", status := "", flw_ref := none
        error_message := "Invalid webhook signature" } ∧
    (flwWebhookPost hmac secretConfigured now s (.webhook d) sig).1.txs = s.txs ∧
    (flwWebhookPost hmac secretConfigured now s (.webhook d) sig).1.logs =
      s.logs ++ [{ provider := "flutterwave", transaction_id := d.tx_ref
                   success := false
                   error_message := "Invalid webhook signature" }] ∧
    (flwWebhookPost hmac secretConfigured now s (.webhook d) sig).2 = 200 := by
  have hv : verifyWebhookSignature hmac secretConfigured d sig = false := by
    unfold verifyWebhookSignature
    split_ifs with h1
    · rfl
    · exact decide_eq_false hsig
  have hw : processWebhook hmac secretConfigured d sig =
      { success := false, tx_ref := "", status := "", flw_ref := none
        error_message := "Invalid webhook signature" } := by
    simp [processWebhook, hv]
  refine ⟨hw, ?_, ?_, ?_⟩ <;> simp [flwWebhookPost, hw]

/-- Witness for C5 at a concrete mismatching signature. -/
theorem C5_invalid_signature_witness :
    (flwWebhookPost (fun _ => "expected-hmac") true 4
        { txs := [tx0], logs := [], syncCount := 0 }
        (.webhook { tx_ref := "TX-1", status := "successful"
                    flw_ref := some "FLW-1", payment_type := "card" })
        "tampered").1.txs = [tx0] := by
  have h := C5_invalid_signature_never_reaches_state_machine
    (fun _ => "expected-hmac") true 4
    { txs := [tx0], logs := [], syncCount := 0 }
    { tx_ref := "TX-1", status := "successful"
      flw_ref := some "FLW-1", payment_type := "card" }
    "tampered" (by decide)
  exact h.2.1

/-- C9 counterexample: two internal outcomes are answered with result
code 1, not the fixed acknowledgement 0 — a body that fails JSON parsing
(the view's `except` branch), and a JSON body on which
`process_callback` raises internally: its `except` clause never returns
the error dict it builds, so the view receives None, `result.get`
raises AttributeError, and the view's `except` branch replies 1. -/
theorem C9_counterexample :
    (mpesaCallbackPost 0 { txs := [], logs := [], syncCount := 0 }
        .badJson).2 = { resultCode := 1 } ∧
    (mpesaCallbackPost 0 { txs := [], logs := [], syncCount := 0 }
        .malformed).2 = { resultCode := 1 } := by
  exact ⟨rfl, rfl⟩

/-- C9 amended: the fixed acknowledgement 0 is sent exactly when
`process_callback` returns its result dict, i.e. for every well-formed
callback envelope — regardless of how the result code maps and of
whether the transaction resolves; both exception outcomes (a body that
fails JSON parsing, and an internal `process_callback` failure, which
returns None and makes the view raise) are answered with result
code 1. -/
theorem C9_ack_zero_only_for_processed_callbacks (now : Nat) (s : SysState)
    (d : MpesaCallbackData) :
    (mpesaCallbackPost now s (.callback d)).2 = { resultCode := 0 } ∧
    (mpesaCallbackPost now s .malformed).2 = { resultCode := 1 } ∧
    (mpesaCallbackPost now s .badJson).2 = { resultCode := 1 } :=
  ⟨rfl, rfl, rfl⟩

/-- One M-Pesa callback step on a single-transaction store when the
result code maps to `completed` and the checkout-request id matches. -/
theorem mpesa_completed_callback_step (now : Nat) (t : Transaction)
    (l : List CallbackLog) (n : Nat) (d : MpesaCallbackData)
    (hid : t.mpesa_checkout_request_id = d.checkout_request_id)
    (hcode : mpesaMapResultCode d.result_code = "completed")
    (hneid : t.transaction_id ≠ "") :
    mpesaCallbackPost now { txs := [t], logs := l, syncCount := n } (.callback d)
      = ({ txs := [{ t with
                       status := "completed"
                       mpesa_receipt := d.mpesa_receipt.getD t.mpesa_receipt
                       completed_at := some (t.completed_at.getD now) }]
           logs := l ++ [{ provider := "mpesa"
                           transaction_id := t.transaction_id
                           success := true
                           error_message := "" }]
           syncCount := if t.status = "completed" then n else n + 1 },
         { resultCode := 0 }) := by
  have hfind : List.find?
      (fun u => decide (u.mpesa_checkout_request_id = d.checkout_request_id))
      [t] = some t := by
    simp [List.find?, hid]
  simp only [mpesaCallbackPost, processCallback, hfind]
  rcases hr : d.mpesa_receipt with _ | r <;>
    rcases hca : t.completed_at with _ | x <;>
      by_cases hst : t.status = "completed" <;>
        simp [Transaction.save, SysState.storeTx, hneid, hcode, hst, hca]

/-- One Flutterwave webhook step on a single-transaction store when the
signature verifies, the status maps to `completed` and the transaction
reference matches. -/
theorem flw_completed_webhook_step (hmac : FlwWebhookData → String)
    (secretConfigured : Bool) (now : Nat) (u : Transaction)
    (l : List CallbackLog) (m : Nat) (w : FlwWebhookData) (sig : String)
    (hsig : verifyWebhookSignature hmac secretConfigured w sig = true)
    (hwid : u.transaction_id = w.tx_ref)
    (hwst : flwMapPaymentStatus w.status = "completed")
    (huid : u.transaction_id ≠ "") :
    flwWebhookPost hmac secretConfigured now
        { txs := [u], logs := l, syncCount := m } (.webhook w) sig
      = ({ txs := [{ u with
                       status := "completed"
                       flutterwave_flw_ref := w.flw_ref.getD u.flutterwave_flw_ref
                       completed_at := some (u.completed_at.getD now) }]
           logs := l ++ [{ provider := "flutterwave"
                           transaction_id := w.tx_ref
                           success := true
                           error_message := "" }]
           syncCount := if u.status = "completed" then m else m + 1 },
         200) := by
  have hpw : processWebhook hmac secretConfigured w sig =
      { success := true, tx_ref := w.tx_ref
        status := flwMapPaymentStatus w.status
        flw_ref := w.flw_ref, error_message := "" } := by
    simp [processWebhook, hsig]
  have hfind : List.find? (fun v => decide (v.transaction_id = w.tx_ref))
      [u] = some u := by
    simp [List.find?, hwid]
  simp only [flwWebhookPost, hpw, hfind]
  rcases hr : w.flw_ref with _ | r <;>
    rcases hca : u.completed_at with _ | x <;>
      by_cases hstat : u.status = "completed" <;>
        simp [Transaction.save, SysState.storeTx, huid, hwst, hstat, hca]

/-- C4: replaying the same success-reporting provider notification twice
(M-Pesa callback with result code 0, or Flutterwave webhook whose status
maps to `completed`) on a store holding the one targeted non-completed
transaction leaves exactly one transaction, in status `completed`, and
increments the downstream-sync counter exactly once — the second,
identical delivery triggers no second sync. -/
theorem C4_webhook_replay_idempotent
    (t u : Transaction) (l l2 : List CallbackLog) (n m : Nat)
    (d : MpesaCallbackData) (w : FlwWebhookData)
    (hmac : FlwWebhookData → String) (secretConfigured : Bool) (sig : String)
    (now1 now2 : Nat)
    (ht : t.status ≠ "completed") (htid : t.transaction_id ≠ "")
    (hid : t.mpesa_checkout_request_id = d.checkout_request_id)
    (hrc : d.result_code = "0")
    (hu : u.status ≠ "completed") (huid : u.transaction_id ≠ "")
    (hwid : u.transaction_id = w.tx_ref)
    (hwst : flwMapPaymentStatus w.status = "completed")
    (hsig : verifyWebhookSignature hmac secretConfigured w sig = true) :
    (((mpesaCallbackPost now2
        (mpesaCallbackPost now1 { txs := [t], logs := l, syncCount := n }
          (.callback d)).1 (.callback d)).1.txs.map Transaction.status
        = ["completed"]) ∧
      (mpesaCallbackPost now2
        (mpesaCallbackPost now1 { txs := [t], logs := l, syncCount := n }
          (.callback d)).1 (.callback d)).1.syncCount = n + 1) ∧
    (((flwWebhookPost hmac secretConfigured now2
        (flwWebhookPost hmac secretConfigured now1
          { txs := [u], logs := l2, syncCount := m } (.webhook w) sig).1
        (.webhook w) sig).1.txs.map Transaction.status = ["completed"]) ∧
      (flwWebhookPost hmac secretConfigured now2
        (flwWebhookPost hmac secretConfigured now1
          { txs := [u], logs := l2, syncCount := m } (.webhook w) sig).1
        (.webhook w) sig).1.syncCount = m + 1) := by
  have hcode : mpesaMapResultCode d.result_code = "completed" := by
    rw [hrc]; decide
  constructor
  · rw [mpesa_completed_callback_step now1 t l n d hid hcode htid]
    dsimp only
    rw [mpesa_completed_callback_step now2 _ _ _ d (by simpa using hid) hcode
        (by simpa using htid)]
    simp [ht]
  · rw [flw_completed_webhook_step hmac secretConfigured now1 u l2 m w sig
        hsig hwid hwst huid]
    dsimp only
    rw [flw_completed_webhook_step hmac secretConfigured now2 _ _ _ w sig
        hsig (by simpa using hwid) hwst (by simpa using huid)]
    simp [hu]

/-- Witness for C4: a pending transaction, a concrete result-code-0
M-Pesa callback and a concrete validly signed successful Flutterwave
webhook, each delivered twice. -/
theorem C4_webhook_replay_witness :
    ((mpesaCallbackPost 8
        (mpesaCallbackPost 7 { txs := [tx0], logs := [], syncCount := 0 }
          (.callback { merchant_request_id := "M-1"
                       checkout_request_id := "CRQ-1", result_code := "0"
                       result_desc := "ok", mpesa_receipt := some "ABC123"
                       transaction_date := some "20250101120000" })).1
        (.callback { merchant_request_id := "M-1"
                     checkout_request_id := "CRQ-1", result_code := "0"
                     result_desc := "ok", mpesa_receipt := some "ABC123"
                     transaction_date := some "20250101120000" })).1.syncCount
      = 1) ∧
    ((flwWebhookPost (fun _ => "h1") true 8
        (flwWebhookPost (fun _ => "h1") true 7
          { txs := [tx0], logs := [], syncCount := 0 }
          (.webhook { tx_ref := "TX-1", status := "successful"
                      flw_ref := some "FLW-1", payment_type := "card" })
          "h1").1
        (.webhook { tx_ref := "TX-1", status := "successful"
                    flw_ref := some "FLW-1", payment_type := "card" })
        "h1").1.syncCount = 1) := by
  have h := C4_webhook_replay_idempotent tx0 tx0 [] [] 0 0
    { merchant_request_id := "M-1", checkout_request_id := "CRQ-1"
      result_code := "0", result_desc := "ok"
      mpesa_receipt := some "ABC123"
      transaction_date := some "20250101120000" }
    { tx_ref := "TX-1", status := "successful"
      flw_ref := some "FLW-1", payment_type := "card" }
    (fun _ => "h1") true "h1" 7 8
    (by decide) (by decide) (by decide) rfl
    (by decide) (by decide) (by decide) (by decide) (by decide)
  exact ⟨h.1.2, h.2.2⟩

/-- C8 counterexample: converting 0.061 USD to GBP (rate 0.73) rounds
0.04453 GBP down to 0.04 GBP, and converting 0.04 GBP back rounds
0.05479... USD to 0.05 USD; the round trip misses the original amount by
0.011, beyond the claimed 0.01 tolerance. -/
theorem C8_counterexample :
    CurrencyService.convert_from_usd (61/1000) "GBP" = 4/100 ∧
    CurrencyService.convert_to_usd (4/100) "GBP" = 5/100 ∧
    1/100 < |CurrencyService.convert_to_usd
        (CurrencyService.convert_from_usd (61/1000) "GBP") "GBP" - (61/1000 : ℚ)| := by
  have e1 : CurrencyService.convert_from_usd (61/1000) "GBP" = 4/100 := by
    rw [CurrencyService.convert_from_usd, convert_amountQ_eq]
    simp only [DEFAULT_CURRENCY]
    rw [rate_usd_gbp]
    have hq : quantize2 ((61/1000 : ℚ) * (73/100)) = ((4 : ℤ) : ℚ) / 100 :=
      quantize2_eq_of_near _ 4 (by norm_num) (by norm_num)
    rw [hq]; norm_num
  have e2 : CurrencyService.convert_to_usd (4/100) "GBP" = 5/100 := by
    rw [CurrencyService.convert_to_usd, convert_amountQ_eq]
    simp only [DEFAULT_CURRENCY]
    rw [rate_gbp_usd]
    have hq : quantize2 ((4/100 : ℚ) * (1 / (73/100))) = ((5 : ℤ) : ℚ) / 100 :=
      quantize2_eq_of_near _ 5 (by norm_num) (by norm_num)
    rw [hq]; norm_num
  refine ⟨e1, e2, ?_⟩
  rw [e1, e2]
  rw [show |(5/100 : ℚ) - 61/1000| = 11/1000 by
    rw [abs_of_neg (by norm_num)]; norm_num]
  norm_num

/-- C8 amended: for every currency in the configured table and every
positive amount the round trip through that currency returns within
0.012 of the original amount (half a cent of rounding in each direction,
the return leg scaled by the inverse rate; the worst configured rate is
GBP at 0.73, giving 1/200 * (1 + 100/73) < 0.012). -/
theorem C8_currency_round_trip_within_012 (c : String) (X : ℚ)
    (hc : c ∈ CurrencyService.get_supported_currencies) (hX : 0 < X) :
    |CurrencyService.convert_to_usd (CurrencyService.convert_from_usd X c) c - X|
      ≤ 3/250 := by
  have hmem : c = "USD" ∨ c = "KES" ∨ c = "EUR" ∨ c = "GBP" := by
    simpa [CurrencyService.get_supported_currencies, EXCHANGE_RATES] using hc
  rcases hmem with rfl|rfl|rfl|rfl
  · rw [CurrencyService.convert_from_usd, CurrencyService.convert_to_usd,
      convert_amountQ_eq, convert_amountQ_eq]
    simp only [DEFAULT_CURRENCY]
    rw [rate_usd_usd]
    have h := roundtrip_bound 1 one_pos X
    rw [show (1:ℚ)/1 = 1 by norm_num] at h
    exact le_trans h (by norm_num)
  · rw [CurrencyService.convert_from_usd, CurrencyService.convert_to_usd,
      convert_amountQ_eq, convert_amountQ_eq]
    simp only [DEFAULT_CURRENCY]
    rw [rate_usd_kes, rate_kes_usd]
    exact le_trans (roundtrip_bound (1475/10) (by norm_num) X) (by norm_num)
  · rw [CurrencyService.convert_from_usd, CurrencyService.convert_to_usd,
      convert_amountQ_eq, convert_amountQ_eq]
    simp only [DEFAULT_CURRENCY]
    rw [rate_usd_eur, rate_eur_usd]
    exact le_trans (roundtrip_bound (85/100) (by norm_num) X) (by norm_num)
  · rw [CurrencyService.convert_from_usd, CurrencyService.convert_to_usd,
      convert_amountQ_eq, convert_amountQ_eq]
    simp only [DEFAULT_CURRENCY]
    rw [rate_usd_gbp, rate_gbp_usd]
    exact le_trans (roundtrip_bound (73/100) (by norm_num) X) (by norm_num)

/-- Witness for C8's amended bound at the counterexample's own input. -/
theorem C8_round_trip_witness :
    |CurrencyService.convert_to_usd
        (CurrencyService.convert_from_usd (61/1000) "GBP") "GBP" - (61/1000 : ℚ)|
      ≤ 3/250 :=
  C8_currency_round_trip_within_012 "GBP" (61/1000) (by decide) (by norm_num)

/-- C7: an initiation request whose amount, normalized to the base
currency, falls below the configured minimum or above the configured
maximum is rejected with HTTP 400 before any effect: no transaction is
created or stored and no provider network call is made. -/
theorem C7_amount_limit_precedes_all_effects (min_usd max_usd : ℚ)
    (pr : ProviderInitResult) (now : Nat) (s : SysState) (req : InitRequest)
    (h : CurrencyService.convert_to_usd req.amount (asciiUpper req.currency) < min_usd ∨
         max_usd < CurrencyService.convert_to_usd req.amount (asciiUpper req.currency)) :
    paymentInitiationPost min_usd max_usd pr now s req =
      (s, { httpStatus := 400, providerCalls := 0 }) := by
  unfold paymentInitiationPost
  by_cases h1 : CurrencyService.convert_to_usd req.amount (asciiUpper req.currency) < min_usd
  · rw [if_pos h1]
  · rcases h with h|h
    · exact absurd h h1
    · rw [if_neg h1, if_pos h]

/-- Witness for C7: a 0.50 USD request against the configured 1 USD
minimum is rejected with no transaction and no provider call. -/
theorem C7_amount_limit_witness :
    paymentInitiationPost MINIMUM_AMOUNT MAXIMUM_AMOUNT
        { success := true, checkout_request_id := "CRQ-9", tx_ref := "T-9"
          error_message := "" } 0
        { txs := [], logs := [], syncCount := 0 }
        { amount := 1/2, currency := "USD", payment_method := "mpesa"
          purpose := "assessment", phone_number := "254700000000"
          user_uid := "user-1", email := "user@example.com", name := "User" }
      = ({ txs := [], logs := [], syncCount := 0 },
         { httpStatus := 400, providerCalls := 0 }) := by
  apply C7_amount_limit_precedes_all_effects
  left
  have hup : asciiUpper "USD" = "USD" := by decide
  show CurrencyService.convert_to_usd (1/2) (asciiUpper "USD") < MINIMUM_AMOUNT
  rw [hup, CurrencyService.convert_to_usd, convert_amountQ_eq]
  simp only [DEFAULT_CURRENCY]
  rw [rate_usd_usd, mul_one]
  have hq : quantize2 (1/2 : ℚ) = ((50 : ℤ) : ℚ) / 100 :=
    quantize2_eq_of_near _ 50 (by norm_num) (by norm_num)
  rw [hq, MINIMUM_AMOUNT]
  norm_num

end Bematore
